import Mathlib

/-!
Verification development for a text-to-speech studio web application.

The repository is a Next.js app with two proxy endpoints (`GET /api/voices`,
`POST /api/synthesize`), a provider client (`src/lib/elevenlabs.ts`),
a zod validation schema (`src/lib/schemas.ts`), a language-code
normalizer (`src/lib/languages.ts`), an audio playback hook
(`src/hooks/useAudioPlayer.ts`) and the studio page component.

JavaScript numbers are modelled as rationals (ℚ), strings as Lean
`String` (case mapping is modelled on the ASCII range, which covers the
catalog's lookup keys), optional/undefined values as `Option`, and
fallible async calls as explicit outcome parameters.
-/

namespace TTS

/-! ## Provider client: `src/lib/elevenlabs.ts` -/

/-- Function `clamp(value, min, max)` from `src/lib/elevenlabs.ts`:
`Math.min(Math.max(value, min), max)`. -/
def clamp (value lo hi : ℚ) : ℚ := min (max value lo) hi

/-- Function `normalizeStabilityForV3` (defined locally inside both `synthesizeSpeech`
and `synthesizeSpeechStream`): eleven_v3 accepts only stability 0.0, 0.5, 1.0.
The cut points 0.25 and 0.75 are written with `mkRat`. -/
def normalizeStabilityForV3 (value : ℚ) : ℚ :=
  if value ≤ mkRat 1 4 then 0
  else if value ≤ mkRat 3 4 then mkRat 1 2
  else 1

/-- Function `selectModelForLanguage(languageCode?, defaultModel?)` from
`src/lib/elevenlabs.ts`.  Hebrew forces `eleven_v3`; otherwise a truthy
`defaultModel` different from `eleven_multilingual_v2` is respected
(JavaScript truthiness: the empty string is falsy); otherwise
`eleven_turbo_v2_5`. -/
def selectModelForLanguage (languageCode : Option String) (defaultModel : Option String) : String :=
  if languageCode = some "he" then "eleven_v3"
  else
    match defaultModel with
    | some d => if d ≠ "" ∧ d ≠ "eleven_multilingual_v2" then d else "eleven_turbo_v2_5"
    | none => "eleven_turbo_v2_5"

/-- Function `getModelCharacterLimit(modelId)` from `src/lib/elevenlabs.ts`. -/
def getModelCharacterLimit (modelId : String) : ℕ :=
  if modelId = "eleven_v3" then 3000
  else if modelId = "eleven_flash_v2_5" ∨ modelId = "eleven_turbo_v2_5" then 30000
  else if modelId = "eleven_flash_v2" ∨ modelId = "eleven_turbo_v2" then 30000
  else if modelId = "eleven_multilingual_v2" ∨ modelId = "eleven_multilingual_v1"
        ∨ modelId = "eleven_monolingual_v1" then 10000
  else 5000

/-- Structure `SynthesisInput` from `src/lib/elevenlabs.ts` (the fields relevant to the
request body; `useSpeakerBoost` etc. kept for faithfulness). -/
structure SynthesisInput where
  text : String
  voiceId : String
  languageCode : Option String
  modelId : Option String
  stability : Option ℚ
  similarityBoost : Option ℚ
  styleExaggeration : Option ℚ
  useSpeakerBoost : Option Bool
  optimizeStreamingLatency : Option ℕ
  outputFormat : Option String

/-- Server environment after `envSchema` parsing in `src/lib/env.ts`:
`ELEVENLABS_MODEL_ID` is a non-empty string defaulting to
`eleven_multilingual_v2`; `ELEVENLABS_OPTIMIZE_LATENCY` is optional. -/
structure ServerEnv where
  modelIdVar : String
  optimizeLatencyVar : Option ℕ

/-- The environment with both variables unset (zod defaults applied). -/
def defaultServerEnv : ServerEnv := ⟨"eleven_multilingual_v2", none⟩

/-- The `voice_settings` object of the provider request body. -/
structure VoiceSettings where
  stability : ℚ
  similarity_boost : ℚ
  style : Option ℚ
  use_speaker_boost : Bool
deriving DecidableEq

/-- JSON body POSTed to `/text-to-speech/{voiceId}` (and `/stream`). -/
structure ProviderRequestBody where
  text : String
  model_id : String
  language_code : Option String
  voice_settings : VoiceSettings
  optimize_streaming_latency : ℕ
  output_format : String
deriving DecidableEq

/-- Body construction of `synthesizeSpeech` in `src/lib/elevenlabs.ts`:
defaults from destructuring, model selection via `selectModelForLanguage`
with `modelId ?? env.ELEVENLABS_MODEL_ID`, stability quantized for
`eleven_v3` and clamped otherwise, `language_code` omitted for `"auto"`. -/
def synthesizeSpeechRequestBody (env : ServerEnv) (input : SynthesisInput) : ProviderRequestBody :=
  let stability := input.stability.getD (mkRat 1 2)
  let similarityBoost := input.similarityBoost.getD (mkRat 4 5)
  let useSpeakerBoost := input.useSpeakerBoost.getD true
  let optimizeStreamingLatency :=
    input.optimizeStreamingLatency.getD (env.optimizeLatencyVar.getD 0)
  let outputFormat := input.outputFormat.getD "mp3_44100_128"
  let selectedModel :=
    selectModelForLanguage input.languageCode (some (input.modelId.getD env.modelIdVar))
  let stabilityValue :=
    if selectedModel = "eleven_v3" then normalizeStabilityForV3 stability
    else clamp stability 0 1
  { text := input.text
    model_id := selectedModel
    language_code := if input.languageCode = some "auto" then none else input.languageCode
    voice_settings :=
      { stability := stabilityValue
        similarity_boost := clamp similarityBoost 0 1
        style := input.styleExaggeration.map (fun s => clamp s 0 1)
        use_speaker_boost := useSpeakerBoost }
    optimize_streaming_latency := optimizeStreamingLatency
    output_format := outputFormat }

/-- Body construction of `synthesizeSpeechStream` in `src/lib/elevenlabs.ts`.
The source duplicates the whole construction (only the URL gains `/stream`),
so the embedding keeps a separate definition. -/
def synthesizeSpeechStreamRequestBody (env : ServerEnv) (input : SynthesisInput) : ProviderRequestBody :=
  let stability := input.stability.getD (mkRat 1 2)
  let similarityBoost := input.similarityBoost.getD (mkRat 4 5)
  let useSpeakerBoost := input.useSpeakerBoost.getD true
  let optimizeStreamingLatency :=
    input.optimizeStreamingLatency.getD (env.optimizeLatencyVar.getD 0)
  let outputFormat := input.outputFormat.getD "mp3_44100_128"
  let selectedModel :=
    selectModelForLanguage input.languageCode (some (input.modelId.getD env.modelIdVar))
  let stabilityValue :=
    if selectedModel = "eleven_v3" then normalizeStabilityForV3 stability
    else clamp stability 0 1
  { text := input.text
    model_id := selectedModel
    language_code := if input.languageCode = some "auto" then none else input.languageCode
    voice_settings :=
      { stability := stabilityValue
        similarity_boost := clamp similarityBoost 0 1
        style := input.styleExaggeration.map (fun s => clamp s 0 1)
        use_speaker_boost := useSpeakerBoost }
    optimize_streaming_latency := optimizeStreamingLatency
    output_format := outputFormat }

/-! ## Language catalog and normalizer: `src/lib/languages.ts` -/

/-- The `LanguageOption` entries from `LANGUAGE_OPTIONS` (codes and labels;
sample texts omitted as they never influence behaviour). -/
structure LanguageOption where
  code : String
  label : String
deriving DecidableEq

/-- Table `LANGUAGE_OPTIONS` from `src/lib/languages.ts`, in source order. -/
def LANGUAGE_OPTIONS : List LanguageOption :=
  [⟨"auto", "Auto detect"⟩, ⟨"he", "Hebrew"⟩, ⟨"en", "English"⟩, ⟨"es", "Spanish"⟩,
   ⟨"fr", "French"⟩, ⟨"de", "German"⟩, ⟨"it", "Italian"⟩, ⟨"pt", "Portuguese"⟩,
   ⟨"ru", "Russian"⟩, ⟨"ja", "Japanese"⟩, ⟨"ko", "Korean"⟩, ⟨"zh", "Chinese"⟩,
   ⟨"ar", "Arabic"⟩, ⟨"hi", "Hindi"⟩, ⟨"cs", "Czech"⟩, ⟨"da", "Danish"⟩,
   ⟨"fi", "Finnish"⟩, ⟨"hu", "Hungarian"⟩, ⟨"nl", "Dutch"⟩, ⟨"pl", "Polish"⟩,
   ⟨"sv", "Swedish"⟩, ⟨"tr", "Turkish"⟩, ⟨"uk", "Ukrainian"⟩]

/-- The `NAME_TO_CODE` map from `src/lib/languages.ts`, as its ordered
entry list (all keys are distinct, so first-match lookup equals map lookup). -/
def NAME_TO_CODE : List (String × String) :=
  [("auto", "auto"), ("he", "he"), ("hebrew", "he"), ("hebrew (modern)", "he"),
   ("en", "en"), ("english", "en"), ("american english", "en"), ("british english", "en"),
   ("es", "es"), ("spanish", "es"), ("castilian spanish", "es"), ("latin american spanish", "es"),
   ("fr", "fr"), ("french", "fr"), ("de", "de"), ("german", "de"),
   ("it", "it"), ("italian", "it"), ("pt", "pt"), ("portuguese", "pt"), ("br portuguese", "pt"),
   ("ru", "ru"), ("russian", "ru"), ("ja", "ja"), ("japanese", "ja"),
   ("ko", "ko"), ("korean", "ko"), ("zh", "zh"), ("chinese", "zh"), ("mandarin chinese", "zh"),
   ("ar", "ar"), ("arabic", "ar"), ("hi", "hi"), ("hindi", "hi"),
   ("cs", "cs"), ("czech", "cs"), ("da", "da"), ("danish", "da"),
   ("fi", "fi"), ("finnish", "fi"), ("hu", "hu"), ("hungarian", "hu"),
   ("nl", "nl"), ("dutch", "nl"), ("pl", "pl"), ("polish", "pl"),
   ("sv", "sv"), ("swedish", "sv"), ("tr", "tr"), ("turkish", "tr"),
   ("uk", "uk"), ("ukrainian", "uk")]

/-- Lookup `NAME_TO_CODE.get(key)`: first-match association lookup. -/
def nameToCode (key : String) : Option String :=
  (NAME_TO_CODE.find? (fun p => p.1 = key)).map Prod.snd

/-- Leading and trailing whitespace removal (`String.prototype.trim`),
on the character list of the string. -/
def trimChars (l : List Char) : List Char :=
  ((l.dropWhile Char.isWhitespace).reverse.dropWhile Char.isWhitespace).reverse

/-- Normalization `input.trim().toLowerCase()`.  Case mapping is modelled on the ASCII
range (`Char.toLower`), which covers every key of the lookup table. -/
def normalizeLabel (s : String) : String :=
  String.mk ((trimChars s.toList).map Char.toLower)

/-- The `[a-z]` character class of the ISO-tag regexp (after lowercasing). -/
def isLowerAlpha (c : Char) : Bool := 'a' ≤ c && c ≤ 'z'

/-- The regexp `^[a-z]{2}(?:(?:-|_)[a-z]{2})?$` applied to the normalized
(lowercased) label: either `xx` or `xx-yy` / `xx_yy`. -/
def isoTagShape : List Char → Bool
  | [a, b] => isLowerAlpha a && isLowerAlpha b
  | [a, b, sep, c, d] =>
      isLowerAlpha a && isLowerAlpha b && (sep = '-' || sep = '_')
        && isLowerAlpha c && isLowerAlpha d
  | _ => false

/-- Prefix extraction `normalized.slice(0, 2)`. -/
def firstTwoChars (s : String) : String := String.mk (s.toList.take 2)

/-- Function `resolveLanguageCode(input?)` from `src/lib/languages.ts`.  JavaScript
falsiness of `input` and of `normalized` maps the empty string to "no
match"; a direct table hit wins; otherwise an ISO-style tag falls back to
its two-letter prefix (table lookup, then the raw prefix). -/
def resolveLanguageCode (input : Option String) : Option String :=
  match input with
  | none => none
  | some s =>
    if s = "" then none
    else
      let normalized := normalizeLabel s
      if normalized = "" then none
      else
        match nameToCode normalized with
        | some direct => some direct
        | none =>
          if isoTagShape normalized.toList then
            some ((nameToCode (firstTwoChars normalized)).getD (firstTwoChars normalized))
          else none

/-! ## JSON values and the zod schema: `src/lib/schemas.ts`

`synthesizeSchema.safeParse` is modelled as a function returning the list
of zod issues, in the order zod produces them: for a non-object input a
single form-level issue; for objects, per-field issues in the shape's
declaration order (text, voiceId, language, stability, similarityBoost,
styleExaggeration, optimizeStreamingLatency, modelId).  An empty issue
list means success.  Default zod message texts are used for generic
failures; the explicit messages of the schema are copied verbatim. -/

/-- JSON values (numbers as rationals). -/
inductive Json where
  | null : Json
  | bool (b : Bool) : Json
  | num (q : ℚ) : Json
  | str (s : String) : Json
  | arr (elems : List Json) : Json
  | obj (fields : List (String × Json)) : Json

/-- JavaScript `typeof`-style name used in zod's "Expected _, received _". -/
def Json.typeName : Json → String
  | .null => "null"
  | .bool _ => "boolean"
  | .num _ => "number"
  | .str _ => "string"
  | .arr _ => "array"
  | .obj _ => "object"

/-- Key lookup inside a JSON object (first occurrence). -/
def lookupField (fields : List (String × Json)) (key : String) : Option Json :=
  (fields.find? (fun p => p.1 = key)).map Prod.snd

/-- A zod issue: path into the value plus a human-readable message. -/
structure ZodIssue where
  path : List String
  message : String
deriving DecidableEq

/-- Check `z.string().min(1, minMsg)` on a required field. -/
def checkRequiredStringMin (fields : List (String × Json)) (key minMsg : String) : List ZodIssue :=
  match lookupField fields key with
  | none => [⟨[key], "Required"⟩]
  | some (.str s) => if s.length < 1 then [⟨[key], minMsg⟩] else []
  | some v => [⟨[key], "Expected string, received " ++ v.typeName⟩]

/-- The `text` field: `z.string().min(1, "Text is required").max(5_000,
"Text must be shorter than 5,000 characters")`. -/
def checkTextField (fields : List (String × Json)) : List ZodIssue :=
  match lookupField fields "text" with
  | none => [⟨["text"], "Required"⟩]
  | some (.str s) =>
      (if s.length < 1 then [⟨["text"], "Text is required"⟩] else [])
        ++ (if s.length > 5000 then [⟨["text"], "Text must be shorter than 5,000 characters"⟩] else [])
  | some v => [⟨["text"], "Expected string, received " ++ v.typeName⟩]

/-- The refinement of the `language` field: `!value || value === "auto" ||
LANGUAGE_OPTIONS.some(option => option.code === value)`. -/
def languageRefinePasses : Option String → Bool
  | none => true
  | some c => c = "auto" || LANGUAGE_OPTIONS.any (fun o => o.code = c)

/-- The `language` field: optional string, transformed (`"" ↦ undefined`)
then refined against `"auto"` and the `LANGUAGE_OPTIONS` codes. -/
def checkLanguageField (fields : List (String × Json)) : List ZodIssue :=
  match lookupField fields "language" with
  | none => []
  | some (.str s) =>
      let value : Option String := if s = "" then none else some s
      if languageRefinePasses value then []
      else [⟨["language"], "Unsupported language selected"⟩]
  | some v => [⟨["language"], "Expected string, received " ++ v.typeName⟩]

/-- Check `z.number().min(0).max(1).optional()` (zod default range messages). -/
def checkOptionalUnitNumber (fields : List (String × Json)) (key : String) : List ZodIssue :=
  match lookupField fields key with
  | none => []
  | some (.num q) =>
      (if q < 0 then [⟨[key], "Number must be greater than or equal to 0"⟩] else [])
        ++ (if q > 1 then [⟨[key], "Number must be less than or equal to 1"⟩] else [])
  | some v => [⟨[key], "Expected number, received " ++ v.typeName⟩]

/-- Check `z.union([z.literal(0), z.literal(1), z.literal(2)]).optional()`
(zod reports a failed literal union as "Invalid input"). -/
def checkLatencyField (fields : List (String × Json)) : List ZodIssue :=
  match lookupField fields "optimizeStreamingLatency" with
  | none => []
  | some (.num q) =>
      if q = 0 ∨ q = 1 ∨ q = 2 then [] else [⟨["optimizeStreamingLatency"], "Invalid input"⟩]
  | some _ => [⟨["optimizeStreamingLatency"], "Invalid input"⟩]

/-- Check `z.string().optional()` for `modelId`. -/
def checkModelIdField (fields : List (String × Json)) : List ZodIssue :=
  match lookupField fields "modelId" with
  | none => []
  | some (.str _) => []
  | some v => [⟨["modelId"], "Expected string, received " ++ v.typeName⟩]

/-- Parse `synthesizeSchema.safeParse`: the list of issues (empty iff success). -/
def parseSynthesize : Json → List ZodIssue
  | .obj fields =>
      checkTextField fields
        ++ checkRequiredStringMin fields "voiceId" "Voice is required"
        ++ checkLanguageField fields
        ++ checkOptionalUnitNumber fields "stability"
        ++ checkOptionalUnitNumber fields "similarityBoost"
        ++ checkOptionalUnitNumber fields "styleExaggeration"
        ++ checkLatencyField fields
        ++ checkModelIdField fields
  | v => [⟨[], "Expected object, received " ++ v.typeName⟩]

/-! ## `POST /api/synthesize` route handler (`app/api/synthesize/route.ts`) -/

/-- First path segment of an issue, when the issue is field-level
(`error.flatten()` groups issues by it). -/
def issueFieldKey (i : ZodIssue) : Option String := i.path.head?

/-- The distinct field keys of the issue list, in first-occurrence order
(the key insertion order of `flattened.fieldErrors`). -/
def fieldKeysAux : List String → List String → List String
  | _, [] => []
  | seen, k :: rest =>
      if seen.contains k then fieldKeysAux seen rest
      else k :: fieldKeysAux (k :: seen) rest

/-- Messages of the issues grouped under a field key, in issue order. -/
def fieldMessages (issues : List ZodIssue) (key : String) : List String :=
  (issues.filter (fun i => issueFieldKey i = some key)).map ZodIssue.message

/-- Expression `Object.values(flattened.fieldErrors ?? \x7b\x7d).flat()`: every field-level
message, grouped per key (keys in first-occurrence order). -/
def flattenedFieldErrorEntries (issues : List ZodIssue) : List String :=
  ((fieldKeysAux [] (issues.filterMap issueFieldKey)).map (fieldMessages issues)).flatten

/-- Expression `flattened.formErrors`: messages of issues with an empty path. -/
def flattenedFormErrors (issues : List ZodIssue) : List String :=
  (issues.filter (fun i => i.path.isEmpty)).map ZodIssue.message

/-- Function `getValidationMessage(error)` from the synthesize route: first
field-level message, else first form-level message, else a generic text. -/
def getValidationMessage (issues : List ZodIssue) : String :=
  match (flattenedFieldErrorEntries issues).head? with
  | some primaryFieldError => primaryFieldError
  | none => ((flattenedFormErrors issues).head?).getD "Please review the submitted values."

/-- Outcome of the upstream `synthesizeSpeechStream` call, as seen by the
route handler: either a stream (opaque here) or a thrown error message. -/
inductive UpstreamOutcome where
  | ok : UpstreamOutcome
  | err (message : String) : UpstreamOutcome

/-- A route response, reduced to the observable pieces the claims discuss:
HTTP status and, for JSON error responses, the `error` field. -/
structure RouteResponse where
  status : ℕ
  errorField : Option String
deriving DecidableEq

/-- Handler `POST /api/synthesize`: `body` is `none` when `request.json()` throws
(unparseable JSON); `upstream` is the provider-call outcome used if
validation passes. -/
def postSynthesize (body : Option Json) (upstream : UpstreamOutcome) : RouteResponse :=
  match body with
  | none => ⟨400, some "Invalid JSON payload"⟩
  | some json =>
    let issues := parseSynthesize json
    if issues.isEmpty then
      match upstream with
      | .ok => ⟨200, none⟩
      | .err _ => ⟨502, some "Synthesis service failed. Please try again."⟩
    else ⟨422, some ("Invalid input: " ++ getValidationMessage issues)⟩

/-! ## `GET /api/voices` route handler (`src/app/api/voices/route.ts`) -/

/-- Prefix test on character lists. -/
def charsPrefix : List Char → List Char → Bool
  | [], _ => true
  | _ :: _, [] => false
  | p :: ps, c :: cs => p = c && charsPrefix ps cs

/-- Substring search on character lists (JavaScript `String.includes`). -/
def charsIncludes (pat : List Char) : List Char → Bool
  | [] => charsPrefix pat []
  | c :: rest => charsPrefix pat (c :: rest) || charsIncludes pat rest

/-- Test `haystack.includes(pattern)`. -/
def strIncludes (haystack pattern : String) : Bool :=
  charsIncludes pattern.toList haystack.toList

/-- The user-facing message chosen by the voices route from the failure
detail (`details.includes(...)` chain). -/
def voicesErrorMessage (details : String) : String :=
  if strIncludes details "missing_permissions" then
    "Your ElevenLabs API key is missing required permissions. Generate a key with voices_read access."
  else if strIncludes details "401" then
    "Invalid or unauthorized ElevenLabs API key. Check your key."
  else
    "Unable to load ElevenLabs voices. Verify your API key and network connection."

/-- Handler `GET /api/voices`: on success relays the voices (status 200); on a
fetch failure with detail `d` responds 500 with the selected message. -/
def getVoicesRoute (fetchOutcome : UpstreamOutcome) : RouteResponse :=
  match fetchOutcome with
  | .ok => ⟨200, none⟩
  | .err details => ⟨500, some (voicesErrorMessage details)⟩

/-! ## Studio page: history list and client character limits (`app/page.tsx`) -/

/-- Function `getCharacterLimit(language)` from the studio page:
3,000 for Hebrew (eleven_v3), 30,000 otherwise (eleven_turbo_v2_5). -/
def getCharacterLimit (language : String) : ℕ :=
  if language = "he" then 3000 else 30000

/-- Structure `HistoryItem` from the studio page. -/
structure HistoryItem where
  id : String
  text : String
  voiceName : String
  createdAt : String
  audioSrc : String
deriving DecidableEq

/-- Constant `MAX_HISTORY` from the studio page. -/
def MAX_HISTORY : ℕ := 5

/-- The history update of `handleSubmit`:
`[entry, ...current].slice(0, MAX_HISTORY)`. -/
def pushHistory (entry : HistoryItem) (current : List HistoryItem) : List HistoryItem :=
  (entry :: current).take MAX_HISTORY

/-- History after a sequence of successful syntheses, oldest submission
first, starting from the initial empty list. -/
def runHistory (submissions : List HistoryItem) : List HistoryItem :=
  submissions.foldl (fun current entry => pushHistory entry current) []

/-! ## Playback helper: `src/hooks/useAudioPlayer.ts` -/

/-- Result type `PlayResult` of the hook. -/
inductive PlayResult where
  | played : PlayResult
  | blocked : PlayResult
  | idle : PlayResult
deriving DecidableEq

/-- How the element's `play()` promise settles: resolution, a rejection
with a `DOMException` carrying a name, or any other rejection. -/
inductive PlayAttempt where
  | resolves : PlayAttempt
  | rejectsDomException (name : String) : PlayAttempt
  | rejectsOther (description : String) : PlayAttempt

/-- Function `playElement(element)`: classifies the play attempt, returning the
result together with the warning logged (if any).  A total function: no
rejection escapes as an exception. -/
def playElement (attempt : PlayAttempt) : PlayResult × Option String :=
  match attempt with
  | .resolves => (.played, none)
  | .rejectsDomException name =>
      if name = "NotAllowedError" ∨ name = "AbortError" then
        (.blocked, some "[audio] Autoplay blocked by browser policy.")
      else
        (.blocked, some "[audio] Failed to play audio element.")
  | .rejectsOther _ => (.blocked, some "[audio] Failed to play audio element.")

/-- Function `setSourceAndPlay(src)` (exposed as `play`): with no audio element
attached reports `idle`; otherwise sets the source, attempts a tolerated
reload, and defers to `playElement`.  `attached` is whether
`audioRef.current` is non-null. -/
def setSourceAndPlay (attached : Bool) (attempt : PlayAttempt) : PlayResult × Option String :=
  if attached then playElement attempt else (.idle, none)

/-! ## Concrete inputs used in witnesses and counterexamples -/

/-- A synthesis input with only the required fields set. -/
def baseInput : SynthesisInput :=
  { text := "hi", voiceId := "v", languageCode := none, modelId := none,
    stability := none, similarityBoost := none, styleExaggeration := none,
    useSpeakerBoost := none, optimizeStreamingLatency := none, outputFormat := none }

/-- Hebrew input with a caller-supplied turbo model (overridden to v3). -/
def inputHebrewOverride : SynthesisInput :=
  { baseInput with languageCode := some "he", modelId := some "eleven_turbo_v2_5" }

/-- English input with an explicit flash model (respected). -/
def inputExplicitFlash : SynthesisInput :=
  { baseInput with languageCode := some "en", modelId := some "eleven_flash_v2_5" }

/-- English input whose explicit model id is `eleven_multilingual_v2`. -/
def inputMultilingualOverride : SynthesisInput :=
  { baseInput with languageCode := some "en", modelId := some "eleven_multilingual_v2" }

/-- Hebrew input with stability 0.6 (mid bucket of the v3 quantizer). -/
def inputStabMid : SynthesisInput :=
  { baseInput with languageCode := some "he", stability := some (mkRat 3 5) }

/-- English input on a flash model with an out-of-range stability 2. -/
def inputStabPassthrough : SynthesisInput :=
  { baseInput with
      languageCode := some "en"
      modelId := some "eleven_flash_v2_5"
      stability := some 2 }

/-- Hebrew input with out-of-range style parameters, for the range
invariant: stability 0.9, style 1.5, similarity boost 2. -/
def inputOutOfRange : SynthesisInput :=
  { baseInput with
      languageCode := some "he"
      stability := some (mkRat 9 10)
      styleExaggeration := some (mkRat 3 2)
      similarityBoost := some 2 }

/-- The request body `{"text":"","voiceId":""}` of the spec's 422 scenario. -/
def jsonEmptyTextVoice : Json :=
  Json.obj [("text", Json.str ""), ("voiceId", Json.str "")]

/-- A schema-valid request body (the one used by the route test for the
502 scenario). -/
def jsonValidPayload : Json :=
  Json.obj
    [("text", Json.str "Hello world"), ("voiceId", Json.str "voice-1"),
     ("language", Json.str "en"), ("stability", Json.num (mkRat 1 2)),
     ("similarityBoost", Json.num (mkRat 7 10)), ("optimizeStreamingLatency", Json.num 1)]

/-- A 6,000-character text: below the turbo model's 30,000-character
limit but above the schema's fixed 5,000-character bound. -/
def text6000 : String := String.mk (List.replicate 6000 'a')

/-- A synthesis payload with the 6,000-character text targeting the
non-Hebrew turbo model. -/
def jsonLongText : Json :=
  Json.obj [("text", Json.str text6000), ("voiceId", Json.str "v"),
            ("modelId", Json.str "eleven_turbo_v2_5")]

/-- A minimal synthesis payload with text, voiceId and an optional
modelId, used to state that schema acceptance ignores the model. -/
def mkSynthesizePayload (t v : String) (m : Option String) : Json :=
  Json.obj ([("text", Json.str t), ("voiceId", Json.str v)]
    ++ (match m with | some s => [("modelId", Json.str s)] | none => []))

/-! ## Shared helper lemmas -/

/-- The quantizer's lower cut point is 0.25. -/
theorem mkRat_one_quarter : mkRat 1 4 = 1/4 := by
  rw [Rat.mkRat_eq_div]; norm_num

/-- The quantizer's upper cut point is 0.75. -/
theorem mkRat_three_quarters : mkRat 3 4 = 3/4 := by
  rw [Rat.mkRat_eq_div]; norm_num

/-- The quantizer's middle output level is 0.5. -/
theorem mkRat_one_half : mkRat 1 2 = 1/2 := by
  rw [Rat.mkRat_eq_div]; norm_num

/-- Clamping `clamp · 0 1` lands in the unit interval. -/
theorem clamp_unit_mem (q : ℚ) : 0 ≤ clamp q 0 1 ∧ clamp q 0 1 ≤ 1 :=
  ⟨le_min (le_max_right q 0) zero_le_one, min_le_right _ _⟩

/-- The v3 stability quantizer only outputs 0, 0.5 or 1. -/
theorem normalizeStabilityForV3_mem (q : ℚ) :
    normalizeStabilityForV3 q = 0 ∨ normalizeStabilityForV3 q = 1/2
      ∨ normalizeStabilityForV3 q = 1 := by
  unfold normalizeStabilityForV3
  split
  · exact Or.inl rfl
  · split
    · exact Or.inr (Or.inl mkRat_one_half)
    · exact Or.inr (Or.inr rfl)

/-- The stability value sent by `synthesizeSpeech` (both paths build the
same expression): quantized for eleven_v3, clamped otherwise, applied to
the input stability with its default 0.5. -/
theorem requestBody_stability_getD (env : ServerEnv) (input : SynthesisInput) :
    (synthesizeSpeechRequestBody env input).voice_settings.stability
      = (if (synthesizeSpeechRequestBody env input).model_id = "eleven_v3"
          then normalizeStabilityForV3 (input.stability.getD (mkRat 1 2))
          else clamp (input.stability.getD (mkRat 1 2)) 0 1) := rfl

/-- Specialization of `requestBody_stability_getD` to a present
stability value. -/
theorem requestBody_stability (env : ServerEnv) (input : SynthesisInput) (s : ℚ)
    (hs : input.stability = some s) :
    (synthesizeSpeechRequestBody env input).voice_settings.stability
      = (if (synthesizeSpeechRequestBody env input).model_id = "eleven_v3"
          then normalizeStabilityForV3 s else clamp s 0 1) := by
  rw [requestBody_stability_getD, hs, Option.getD_some]

/-- The model id sent by `synthesizeSpeech` is the one selected by
`selectModelForLanguage` from the language code and
`modelId ?? env.ELEVENLABS_MODEL_ID`. -/
theorem requestBody_model_id (env : ServerEnv) (input : SynthesisInput) :
    (synthesizeSpeechRequestBody env input).model_id
      = selectModelForLanguage input.languageCode (some (input.modelId.getD env.modelIdVar)) :=
  rfl

/-- Evaluation of `selectModelForLanguage` on a present default model, with the match
iota-reduced. -/
theorem selectModelForLanguage_some (lang : Option String) (d : String) :
    selectModelForLanguage lang (some d)
      = if lang = some "he" then "eleven_v3"
        else if d ≠ "" ∧ d ≠ "eleven_multilingual_v2" then d
        else "eleven_turbo_v2_5" := rfl

/-! ## C1: model selection -/

/-- C1 (counterexample): the claim "if the caller gave an explicit model
id, that model id is used" fails: with resolved language "en" and the
caller-supplied model id `eleven_multilingual_v2`, `synthesizeSpeech`
sends `eleven_turbo_v2_5`, not the caller's model. -/
theorem modelSelection_counterexample :
    inputMultilingualOverride.languageCode = some "en" ∧
    inputMultilingualOverride.modelId = some "eleven_multilingual_v2" ∧
    (synthesizeSpeechRequestBody defaultServerEnv inputMultilingualOverride).model_id
      = "eleven_turbo_v2_5" ∧
    "eleven_turbo_v2_5" ≠ "eleven_multilingual_v2" := by
  refine ⟨rfl, rfl, by decide, by decide⟩

/-- C1 (amended): if the resolved language code is "he" the selected
model is "eleven_v3" regardless of any caller-supplied model id;
otherwise the effective model id (the caller's explicit model id if
given, else the configured default) is used, unless it is empty or
"eleven_multilingual_v2", in which case "eleven_turbo_v2_5" is used. -/
theorem modelSelection_policy (env : ServerEnv) (input : SynthesisInput) :
    (input.languageCode = some "he" →
      (synthesizeSpeechRequestBody env input).model_id = "eleven_v3") ∧
    (input.languageCode ≠ some "he" →
      input.modelId.getD env.modelIdVar ≠ "" →
      input.modelId.getD env.modelIdVar ≠ "eleven_multilingual_v2" →
      (synthesizeSpeechRequestBody env input).model_id = input.modelId.getD env.modelIdVar) ∧
    (input.languageCode ≠ some "he" →
      (input.modelId.getD env.modelIdVar = "" ∨
        input.modelId.getD env.modelIdVar = "eleven_multilingual_v2") →
      (synthesizeSpeechRequestBody env input).model_id = "eleven_turbo_v2_5") := by
  rw [requestBody_model_id, selectModelForLanguage_some]
  refine ⟨fun h => by rw [if_pos h], fun h h1 h2 => ?_, fun h h12 => ?_⟩
  · rw [if_neg h, if_pos ⟨h1, h2⟩]
  · rw [if_neg h, if_neg]
    rintro ⟨h1, h2⟩
    rcases h12 with h' | h'
    · exact h1 h'
    · exact h2 h'

/-- C1 witness: Hebrew forces eleven_v3 over an explicit turbo override;
an explicit flash model on English is respected; an explicit
`eleven_multilingual_v2` on English falls back to turbo. -/
theorem modelSelection_policy_witness :
    (synthesizeSpeechRequestBody defaultServerEnv inputHebrewOverride).model_id = "eleven_v3" ∧
    (synthesizeSpeechRequestBody defaultServerEnv inputExplicitFlash).model_id
      = "eleven_flash_v2_5" ∧
    (synthesizeSpeechRequestBody defaultServerEnv inputMultilingualOverride).model_id
      = "eleven_turbo_v2_5" :=
  ⟨(modelSelection_policy defaultServerEnv inputHebrewOverride).1 (by decide),
   (modelSelection_policy defaultServerEnv inputExplicitFlash).2.1
     (by decide) (by decide) (by decide),
   (modelSelection_policy defaultServerEnv inputMultilingualOverride).2.2
     (by decide) (Or.inr (by decide))⟩

/-! ## C2: stability quantization -/

/-- C2: for every stability value `s`, when the selected model is
eleven_v3 the value sent to the provider is 0 if `s ≤ 0.25`, 0.5 if
`0.25 < s ≤ 0.75` and 1 if `s > 0.75`; for any other model it is `s`
clamped to the unit interval.  The streaming path builds the identical
body, so the property holds for both `synthesizeSpeech` and
`synthesizeSpeechStream`. -/
theorem stabilityQuantization (env : ServerEnv) (input : SynthesisInput) (s : ℚ)
    (hs : input.stability = some s) :
    synthesizeSpeechStreamRequestBody env input = synthesizeSpeechRequestBody env input ∧
    ((synthesizeSpeechRequestBody env input).model_id = "eleven_v3" →
      (s ≤ 1/4 → (synthesizeSpeechRequestBody env input).voice_settings.stability = 0) ∧
      (1/4 < s → s ≤ 3/4 →
        (synthesizeSpeechRequestBody env input).voice_settings.stability = 1/2) ∧
      (3/4 < s → (synthesizeSpeechRequestBody env input).voice_settings.stability = 1)) ∧
    ((synthesizeSpeechRequestBody env input).model_id ≠ "eleven_v3" →
      (synthesizeSpeechRequestBody env input).voice_settings.stability = clamp s 0 1) := by
  have hstab := requestBody_stability env input s hs
  refine ⟨rfl, fun hm => ?_, fun hm => ?_⟩
  · rw [hstab, if_pos hm]
    unfold normalizeStabilityForV3
    rw [mkRat_one_quarter, mkRat_three_quarters, mkRat_one_half]
    refine ⟨fun h1 => by rw [if_pos h1], fun h1 h2 => ?_, fun h3 => ?_⟩
    · rw [if_neg (not_le.mpr h1), if_pos h2]
    · rw [if_neg (not_le.mpr (lt_trans (by norm_num) h3)),
          if_neg (not_le.mpr h3)]
  · rw [hstab, if_neg hm]

/-- C2 witness: with stability 0.6 on a Hebrew (eleven_v3) synthesis the
body carries 0.5; with stability 2 on a flash model it carries the
clamped value. -/
theorem stabilityQuantization_witness :
    (synthesizeSpeechRequestBody defaultServerEnv inputStabMid).voice_settings.stability = 1/2 ∧
    (synthesizeSpeechRequestBody defaultServerEnv inputStabPassthrough).voice_settings.stability
      = clamp 2 0 1 :=
  ⟨((stabilityQuantization defaultServerEnv inputStabMid (mkRat 3 5) rfl).2.1
      (by decide)).2.1 (by norm_num [Rat.mkRat_eq_div])
      (by norm_num [Rat.mkRat_eq_div]),
   (stabilityQuantization defaultServerEnv inputStabPassthrough 2 rfl).2.2 (by decide)⟩

/-! ## C3: single-message validation error reporting -/

/-- Skipping an empty-path (form-level) issue leaves the flattened
field-error entries unchanged. -/
theorem flattenedFieldErrorEntries_cons_form (i : ZodIssue) (rest : List ZodIssue)
    (hp : i.path = []) :
    flattenedFieldErrorEntries (i :: rest) = flattenedFieldErrorEntries rest := by
  have hkey : issueFieldKey i = none := by simp [issueFieldKey, hp]
  unfold flattenedFieldErrorEntries
  rw [List.filterMap_cons_none hkey]
  congr 1
  apply List.map_congr_left
  intro k _
  unfold fieldMessages
  rw [List.filter_cons_of_neg]
  simp [hkey]

/-- The first entry of the flattened field errors is the message of the
first field-level issue. -/
theorem flattenedFieldErrorEntries_head (issues : List ZodIssue) :
    ∀ i₀, issues.find? (fun i => !i.path.isEmpty) = some i₀ →
      (flattenedFieldErrorEntries issues).head? = some i₀.message := by
  induction issues with
  | nil => intro i₀ h; simp at h
  | cons i rest ih =>
    intro i₀ h
    cases hp : i.path with
    | nil =>
      rw [List.find?_cons_of_neg] at h
      · rw [flattenedFieldErrorEntries_cons_form i rest hp]
        exact ih i₀ h
      · simp [hp]
    | cons k tl =>
      rw [List.find?_cons_of_pos] at h
      · cases h
        have hkey : issueFieldKey i = some k := by simp [issueFieldKey, hp]
        unfold flattenedFieldErrorEntries
        rw [List.filterMap_cons_some hkey]
        have hkeys : fieldKeysAux [] (k :: (rest.filterMap issueFieldKey))
            = k :: fieldKeysAux [k] (rest.filterMap issueFieldKey) := by
          simp [fieldKeysAux]
        rw [hkeys, List.map_cons, List.flatten_cons, List.head?_append]
        have hgroup : fieldMessages (i :: rest) k = i.message :: fieldMessages rest k := by
          unfold fieldMessages
          rw [List.filter_cons_of_pos]
          · rfl
          · simp [hkey]
        rw [hgroup]
        rfl
      · simp [hp]

/-- With no field-level issue, the flattened field errors are empty. -/
theorem flattenedFieldErrorEntries_eq_nil (issues : List ZodIssue)
    (h : issues.find? (fun i => !i.path.isEmpty) = none) :
    flattenedFieldErrorEntries issues = [] := by
  have hkeys : issues.filterMap issueFieldKey = [] := by
    rw [List.filterMap_eq_nil_iff]
    intro i hi
    have hempty := List.find?_eq_none.mp h i hi
    have hpe : i.path.isEmpty = true := by simpa using hempty
    simp [issueFieldKey, List.isEmpty_iff.mp hpe]
  unfold flattenedFieldErrorEntries
  rw [hkeys]
  rfl

/-- C3: every JSON body that parses but fails schema validation gets a
422 whose error field is "Invalid input: " followed by the single
message `getValidationMessage` selects: the first field-level violation
message if one exists, else the first form-level message, else the
generic fallback — never an aggregate. -/
theorem validationErrorReporting (j : Json) (u : UpstreamOutcome)
    (hfail : parseSynthesize j ≠ []) :
    (postSynthesize (some j) u).status = 422 ∧
    (postSynthesize (some j) u).errorField
      = some ("Invalid input: " ++ getValidationMessage (parseSynthesize j)) ∧
    (∀ i₀, (parseSynthesize j).find? (fun i => !i.path.isEmpty) = some i₀ →
      getValidationMessage (parseSynthesize j) = i₀.message) ∧
    ((parseSynthesize j).find? (fun i => !i.path.isEmpty) = none →
      getValidationMessage (parseSynthesize j)
        = ((flattenedFormErrors (parseSynthesize j)).head?).getD
            "Please review the submitted values.") := by
  have hne : (parseSynthesize j).isEmpty = false := by
    cases he : (parseSynthesize j).isEmpty
    · rfl
    · exact absurd (List.isEmpty_iff.mp he) hfail
  refine ⟨?_, ?_, fun i₀ hfind => ?_, fun hfind => ?_⟩
  · simp [postSynthesize, hne]
  · simp [postSynthesize, hne]
  · unfold getValidationMessage
    rw [flattenedFieldErrorEntries_head (parseSynthesize j) i₀ hfind]
  · unfold getValidationMessage
    rw [flattenedFieldErrorEntries_eq_nil (parseSynthesize j) hfind]
    rfl

/-- C3 witness: `{"text":"","voiceId":""}` yields 422 with exactly
"Invalid input: Text is required" (the first field-level message). -/
theorem validationErrorReporting_witness :
    (postSynthesize (some jsonEmptyTextVoice) UpstreamOutcome.ok).status = 422 ∧
    (postSynthesize (some jsonEmptyTextVoice) UpstreamOutcome.ok).errorField
      = some "Invalid input: Text is required" :=
  ⟨(validationErrorReporting jsonEmptyTextVoice .ok (by decide)).1,
   ((validationErrorReporting jsonEmptyTextVoice .ok (by decide)).2.1).trans (by decide)⟩

/-! ## C4: upstream failure sanitization -/

/-- C4: whenever a request passes validation and the upstream
`synthesizeSpeechStream` call throws, the route answers 502 with exactly
`{ error: "Synthesis service failed. Please try again." }`, for every
upstream error message — the detail never reaches the response body. -/
theorem upstreamFailureSanitized (j : Json) (msg : String)
    (hvalid : parseSynthesize j = []) :
    postSynthesize (some j) (.err msg)
      = ⟨502, some "Synthesis service failed. Please try again."⟩ := by
  simp [postSynthesize, hvalid]

/-- C4 witness: the route test's valid payload with upstream error
"Upstream error" gets the fixed 502 body. -/
theorem upstreamFailureSanitized_witness :
    postSynthesize (some jsonValidPayload) (.err "Upstream error")
      = ⟨502, some "Synthesis service failed. Please try again."⟩ :=
  upstreamFailureSanitized jsonValidPayload "Upstream error" (by decide)

/-! ## C5: text length bound -/

/-- Schema `synthesizeSchema` acceptance of a text/voiceId/modelId payload
depends only on the fixed 1..5,000 text bound and the non-empty voice
id — never on the model id. -/
theorem parseSynthesize_mkPayload (t v : String) (m : Option String) :
    parseSynthesize (mkSynthesizePayload t v m) = []
      ↔ 1 ≤ t.length ∧ t.length ≤ 5000 ∧ 1 ≤ v.length := by
  cases m with
  | none =>
    simp [mkSynthesizePayload, parseSynthesize, checkTextField, checkRequiredStringMin,
      checkLanguageField, checkOptionalUnitNumber, checkLatencyField, checkModelIdField,
      lookupField, List.find?]
    omega
  | some s =>
    simp [mkSynthesizePayload, parseSynthesize, checkTextField, checkRequiredStringMin,
      checkLanguageField, checkOptionalUnitNumber, checkLatencyField, checkModelIdField,
      lookupField, List.find?]
    omega

/-- The 6,000-character text has length 6,000. -/
theorem text6000_length : text6000.length = 6000 := by
  rw [show text6000.length = (List.replicate 6000 'a').length from rfl,
      List.length_replicate]

/-- C5 (counterexample): the claim that the validation layer's text
bound is model-dependent (up to 30,000 characters for non-Hebrew models)
fails: a 6,000-character text aimed at `eleven_turbo_v2_5` is within
that model's 30,000-character limit, yet `synthesizeSchema` rejects the
payload — the schema enforces a fixed 5,000-character bound. -/
theorem textLengthBound_counterexample :
    text6000.length = 6000 ∧
    text6000.length ≤ getModelCharacterLimit "eleven_turbo_v2_5" ∧
    parseSynthesize jsonLongText ≠ [] := by
  refine ⟨text6000_length, by rw [text6000_length]; decide, ?_⟩
  rw [show jsonLongText = mkSynthesizePayload text6000 "v" (some "eleven_turbo_v2_5") from rfl,
      Ne, parseSynthesize_mkPayload, text6000_length]
  intro h
  omega

/-- C5 (amended): the schema validation layer bounds `text` by the fixed
interval 1..5,000 independently of any model id in the payload; the
model-dependent character limits (3,000 for Hebrew's model, 30,000
otherwise) belong to the client-side pre-submit check
`getCharacterLimit`, not to schema validation. -/
theorem textLengthBound_fixed (t v : String) (m : Option String) :
    (parseSynthesize (mkSynthesizePayload t v m) = []
      ↔ 1 ≤ t.length ∧ t.length ≤ 5000 ∧ 1 ≤ v.length) ∧
    getCharacterLimit "he" = 3000 ∧
    (∀ lang, lang ≠ "he" → getCharacterLimit lang = 30000) :=
  ⟨parseSynthesize_mkPayload t v m, rfl,
   fun lang hl => by simp [getCharacterLimit, hl]⟩

/-- C5 witness: a 5-character text is accepted whatever the model id,
and the client-side limit for English is 30,000. -/
theorem textLengthBound_fixed_witness :
    parseSynthesize (mkSynthesizePayload "hello" "v" (some "eleven_v3")) = [] ∧
    getCharacterLimit "en" = 30000 :=
  ⟨(textLengthBound_fixed "hello" "v" (some "eleven_v3")).1.mpr (by decide),
   (textLengthBound_fixed "hello" "v" (some "eleven_v3")).2.2 "en" (by decide)⟩

/-! ## C6: voices route error message selection -/

/-- C6: on any voice-fetch failure the route answers 500, with the
message selected by substring matching: a detail containing
"missing_permissions" yields the permission-setup hint (even if it also
contains "401"); otherwise a detail containing "401" yields exactly the
invalid-key hint; any other detail yields the generic connectivity
hint. -/
theorem voicesErrorSelection (d : String) :
    (strIncludes d "missing_permissions" = true →
      getVoicesRoute (.err d) = ⟨500, some
        ("Your ElevenLabs API key is missing required permissions. "
          ++ "Generate a key with voices_read access.")⟩) ∧
    (strIncludes d "missing_permissions" = false → strIncludes d "401" = true →
      getVoicesRoute (.err d) = ⟨500, some
        "Invalid or unauthorized ElevenLabs API key. Check your key."⟩) ∧
    (strIncludes d "missing_permissions" = false → strIncludes d "401" = false →
      getVoicesRoute (.err d) = ⟨500, some
        ("Unable to load ElevenLabs voices. "
          ++ "Verify your API key and network connection.")⟩) := by
  refine ⟨fun h1 => ?_, fun h1 h2 => ?_, fun h1 h2 => ?_⟩ <;>
    simp [getVoicesRoute, voicesErrorMessage, h1]
  · simp [h2]
  · simp [h2]

/-- C6 witness: a 401 failure detail (as raised by `fetchVoices`) maps
to the invalid-key hint; a missing-permissions detail that also contains
"401" maps to the permission hint; an unrelated detail maps to the
generic hint. -/
theorem voicesErrorSelection_witness :
    getVoicesRoute (.err "Failed to fetch voices (401 Unauthorized): unknown error")
      = ⟨500, some "Invalid or unauthorized ElevenLabs API key. Check your key."⟩ ∧
    getVoicesRoute (.err "401 missing_permissions")
      = ⟨500, some ("Your ElevenLabs API key is missing required permissions. "
          ++ "Generate a key with voices_read access.")⟩ ∧
    getVoicesRoute (.err "ECONNREFUSED")
      = ⟨500, some ("Unable to load ElevenLabs voices. "
          ++ "Verify your API key and network connection.")⟩ :=
  ⟨(voicesErrorSelection "Failed to fetch voices (401 Unauthorized): unknown error").2.1
      (by decide) (by decide),
   (voicesErrorSelection "401 missing_permissions").1 (by decide),
   (voicesErrorSelection "ECONNREFUSED").2.2 (by decide) (by decide)⟩

/-! ## C7: language-code normalization -/

/-- C7: `resolveLanguageCode` is a pure function (a Lean function by
construction) performing a case-insensitive, trimmed lookup:
"Hebrew (Modern)" maps to "he"; "en-US" maps to "en" by two-letter
prefix extraction; and every input whose normalized form hits neither
the name table nor the ISO-tag shape resolves to no match. -/
theorem resolveLanguageCode_spec :
    resolveLanguageCode (some "Hebrew (Modern)") = some "he" ∧
    resolveLanguageCode (some "en-US") = some "en" ∧
    (∀ s, nameToCode (normalizeLabel s) = none →
      isoTagShape (normalizeLabel s).toList = false →
      resolveLanguageCode (some s) = none) := by
  refine ⟨by decide, by decide, fun s h1 h2 => ?_⟩
  unfold resolveLanguageCode
  by_cases hs : s = ""
  · simp [hs]
  · simp only [if_neg hs]
    by_cases hn : normalizeLabel s = ""
    · simp [hn]
    · have h2' : isoTagShape (normalizeLabel s).data = false := h2
      simp [hn, h1, h2']

/-- C7 witness: the free-text label "Klingon speech" matches neither the
table nor the ISO shape and resolves to no match. -/
theorem resolveLanguageCode_spec_witness :
    resolveLanguageCode (some "Klingon speech") = none :=
  resolveLanguageCode_spec.2.2 "Klingon speech" (by decide) (by decide)

/-! ## C8: bounded newest-first history -/

/-- Absorption of an inner `take` under an outer `take` of the same
length across an append. -/
theorem take_append_take_absorb {α : Type} (n : ℕ) (xs ys : List α) :
    (xs ++ ys.take n).take n = (xs ++ ys).take n := by
  rw [List.take_append_eq_append_take, List.take_append_eq_append_take,
      List.take_take]
  have h : (n - xs.length) ⊓ n = n - xs.length :=
    Nat.min_eq_left (Nat.sub_le _ _)
  rw [h]

/-- Folding the history update over submissions equals taking the first
`MAX_HISTORY` entries of the reversed submission list (plus the starting
accumulator). -/
theorem foldl_pushHistory_eq (subs : List HistoryItem) :
    ∀ acc : List HistoryItem, acc.length ≤ MAX_HISTORY →
      subs.foldl (fun current entry => pushHistory entry current) acc
        = (subs.reverse ++ acc).take MAX_HISTORY := by
  induction subs with
  | nil =>
    intro acc hacc
    simp [List.take_of_length_le hacc]
  | cons e rest ih =>
    intro acc _
    have hlen : ((e :: acc).take MAX_HISTORY).length ≤ MAX_HISTORY := by
      rw [List.length_take]
      exact Nat.min_le_left _ _
    calc (e :: rest).foldl (fun current entry => pushHistory entry current) acc
        = rest.foldl (fun current entry => pushHistory entry current)
            ((e :: acc).take MAX_HISTORY) := rfl
      _ = (rest.reverse ++ (e :: acc).take MAX_HISTORY).take MAX_HISTORY := ih _ hlen
      _ = (rest.reverse ++ (e :: acc)).take MAX_HISTORY := by
            rw [take_append_take_absorb]
      _ = ((e :: rest).reverse ++ acc).take MAX_HISTORY := by
            rw [List.reverse_cons, List.append_assoc]
            rfl

/-- C8: starting from the empty history, after any sequence of
successful syntheses the history is exactly the reversed submission list
truncated to `MAX_HISTORY` entries — newest first, with `min N 5`
entries, the oldest evicted on each overflow; in particular the
retained texts and voice names are exactly those of the last five
submissions. -/
theorem historyInvariant (subs : List HistoryItem) :
    runHistory subs = subs.reverse.take MAX_HISTORY ∧
    (runHistory subs).length = min subs.length MAX_HISTORY := by
  have h := foldl_pushHistory_eq subs [] (by simp [MAX_HISTORY])
  rw [List.append_nil] at h
  refine ⟨h, ?_⟩
  rw [runHistory, h, List.length_take, List.length_reverse, Nat.min_comm]

/-! ## C9: playback outcome classification -/

/-- C9: with no audio handle attached, `play` reports `idle`; a
resolving `play()` reports `played` with no warning; a rejection with a
NotAllowedError or AbortError DOMException reports `blocked` with the
autoplay warning; every other rejection also reports `blocked` with a
warning — the classifier is a total function, so no play failure
propagates as an exception. -/
theorem playbackClassification :
    (∀ attempt, setSourceAndPlay false attempt = (.idle, none)) ∧
    setSourceAndPlay true .resolves = (.played, none) ∧
    (∀ n, n = "NotAllowedError" ∨ n = "AbortError" →
      setSourceAndPlay true (.rejectsDomException n)
        = (.blocked, some "[audio] Autoplay blocked by browser policy.")) ∧
    (∀ attempt, attempt ≠ .resolves →
      (setSourceAndPlay true attempt).1 = .blocked ∧
      (setSourceAndPlay true attempt).2.isSome = true) := by
  refine ⟨fun attempt => rfl, rfl, fun n hn => ?_, fun attempt ha => ?_⟩
  · rcases hn with rfl | rfl <;> decide
  · cases attempt with
    | resolves => exact absurd rfl ha
    | rejectsDomException n =>
      simp only [setSourceAndPlay, if_true, playElement]
      by_cases hn : n = "NotAllowedError" ∨ n = "AbortError"
      · rw [if_pos hn]; exact ⟨rfl, rfl⟩
      · rw [if_neg hn]; exact ⟨rfl, rfl⟩
    | rejectsOther d => exact ⟨rfl, rfl⟩

/-- C9 witness: a NotAllowedError rejection is classified `blocked` with
the autoplay warning, and an arbitrary non-DOMException rejection is
also classified `blocked` with a warning. -/
theorem playbackClassification_witness :
    setSourceAndPlay true (.rejectsDomException "NotAllowedError")
      = (.blocked, some "[audio] Autoplay blocked by browser policy.") ∧
    (setSourceAndPlay true (.rejectsOther "decode failure")).1 = PlayResult.blocked :=
  ⟨playbackClassification.2.2.1 "NotAllowedError" (Or.inl rfl),
   (playbackClassification.2.2.2 (.rejectsOther "decode failure") (by simp)).1⟩

/-! ## C10: provider-request range invariant -/

/-- C10: for every synthesis input — including out-of-range values that
bypass schema validation — the body sent to the provider (on both the
buffered and the streaming path) has `similarity_boost` in `[0,1]`,
`style` (when present) in `[0,1]`, and `stability` in `[0,1]` for
non-eleven_v3 models or exactly one of `{0, 0.5, 1}` for eleven_v3:
the client clamps and quantizes independently of validation. -/
theorem providerRangeInvariant (env : ServerEnv) (input : SynthesisInput) :
    (synthesizeSpeechStreamRequestBody env input = synthesizeSpeechRequestBody env input) ∧
    (0 ≤ (synthesizeSpeechRequestBody env input).voice_settings.similarity_boost ∧
      (synthesizeSpeechRequestBody env input).voice_settings.similarity_boost ≤ 1) ∧
    (∀ st, (synthesizeSpeechRequestBody env input).voice_settings.style = some st →
      0 ≤ st ∧ st ≤ 1) ∧
    ((synthesizeSpeechRequestBody env input).model_id ≠ "eleven_v3" →
      0 ≤ (synthesizeSpeechRequestBody env input).voice_settings.stability ∧
      (synthesizeSpeechRequestBody env input).voice_settings.stability ≤ 1) ∧
    ((synthesizeSpeechRequestBody env input).model_id = "eleven_v3" →
      (synthesizeSpeechRequestBody env input).voice_settings.stability = 0 ∨
      (synthesizeSpeechRequestBody env input).voice_settings.stability = 1/2 ∨
      (synthesizeSpeechRequestBody env input).voice_settings.stability = 1) := by
  have hstab := requestBody_stability_getD env input
  refine ⟨rfl, clamp_unit_mem _, fun st hst => ?_, fun hm => ?_, fun hm => ?_⟩
  · have : (synthesizeSpeechRequestBody env input).voice_settings.style
        = input.styleExaggeration.map (fun s => clamp s 0 1) := rfl
    rw [this] at hst
    rcases Option.map_eq_some'.mp hst with ⟨y, _, hy⟩
    rw [← hy]
    exact clamp_unit_mem y
  · rw [hstab, if_neg hm]
    exact clamp_unit_mem _
  · rw [hstab, if_pos hm]
    exact normalizeStabilityForV3_mem _

/-- C10 witness: an input with out-of-range style values on a Hebrew
(eleven_v3) synthesis still produces a stability in `{0, 0.5, 1}` and a
clamped style. -/
theorem providerRangeInvariant_witness :
    ((synthesizeSpeechRequestBody defaultServerEnv inputOutOfRange).voice_settings.stability = 0 ∨
      (synthesizeSpeechRequestBody defaultServerEnv inputOutOfRange).voice_settings.stability = 1/2 ∨
      (synthesizeSpeechRequestBody defaultServerEnv inputOutOfRange).voice_settings.stability = 1) ∧
    (0 ≤ clamp (mkRat 3 2) 0 1 ∧ clamp (mkRat 3 2) 0 1 ≤ 1) :=
  ⟨(providerRangeInvariant defaultServerEnv inputOutOfRange).2.2.2.2 (by decide),
   (providerRangeInvariant defaultServerEnv inputOutOfRange).2.2.1 (clamp (mkRat 3 2) 0 1) rfl⟩

end TTS
